import Mathlib

/-!
Verification development for the FAQsimple MCP server's search-and-retrieval
client (`src/faqsimple-api.ts` and its collaborator `src/index.ts`).

The TypeScript client is shallowly embedded: JavaScript string primitives the
source relies on (`split(/\s+/)`, `toLowerCase`, `trim`, `includes`,
`parseInt`) are modelled as executable Lean functions over `List Char`;
the stateful client (cache, rate bookkeeping, transport) is modelled by
explicit state passing, with the network represented as a supplied outcome
per request.  Relevance scores are modelled as rationals.
-/

namespace FAQs

/-- Whitespace test matching the characters relevant to the regex `\s` and to
JavaScript `trim` (ASCII subset: space, tab, newline, carriage return,
vertical tab, form feed). -/
def isWS (c : Char) : Bool :=
  c = ' ' || c = '\t' || c = '\n' || c = '\r' || c = '\x0b' || c = '\x0c'

/-- Model of JavaScript `String.prototype.toLowerCase` (ASCII case mapping),
kept as a plain `List Char` map so list lemmas apply. -/
def jsToLower (s : String) : String :=
  String.mk (s.toList.map Char.toLower)

/-- Model of JavaScript `String.prototype.trim`: strip leading and trailing
whitespace. -/
def jsTrim (s : String) : String :=
  String.mk (((s.toList.dropWhile isWS).reverse.dropWhile isWS).reverse)

/-- The test `listIncludes sub hay` decides whether `sub` occurs as a
contiguous subsequence of `hay` (the semantics of JavaScript `hay.includes(sub)`). -/
def listIncludes (sub : List Char) : List Char → Bool
  | [] => sub.isEmpty
  | c :: rest => sub.isPrefixOf (c :: rest) || listIncludes sub rest

/-- Model of JavaScript `s.includes(sub)`. -/
def stringIncludes (s sub : String) : Bool :=
  listIncludes sub.toList s.toList

/-- Model of JavaScript `s.startsWith(p)`. -/
def jsStartsWith (s p : String) : Bool :=
  p.toList.isPrefixOf s.toList

/-- Cons a list of characters onto the front of the first token of a split
result (helper for `jsSplitChars`). -/
def consToks (t : List Char) : List String → List String
  | [] => [String.mk t]
  | s :: ss => String.mk (t ++ s.toList) :: ss

/-- Worker for `jsSplitChars`.  The flag records whether the scan is
currently inside a whitespace-separator run (whose empty-token contribution,
if any, has already been emitted). -/
def jsSplitAux (inSep : Bool) : List Char → List String
  | [] => [""]
  | c :: rest =>
    if isWS c then
      if inSep then jsSplitAux true rest
      else "" :: jsSplitAux true rest
    else consToks [c] (jsSplitAux false rest)

/-- Model of JavaScript `s.split(/\s+/)` on a character list: separators are
maximal whitespace runs; a leading or trailing separator contributes an empty
token, and splitting the empty string yields `[""]`. -/
def jsSplitChars (l : List Char) : List String :=
  jsSplitAux false l

/-- Model of JavaScript `s.split(/\s+/)`. -/
def jsSplitWS (s : String) : List String :=
  jsSplitChars s.toList

/-- Worker for `wordsChars`; `acc` is the word currently being read. -/
def wordsAux (acc : List Char) : List Char → List String
  | [] => if acc.isEmpty then [] else [String.mk acc]
  | c :: rest =>
    if isWS c then
      if acc.isEmpty then wordsAux [] rest
      else String.mk acc :: wordsAux [] rest
    else wordsAux (acc ++ [c]) rest

/-- The whitespace-delimited words of a character list: the maximal runs of
non-whitespace characters, with no empty tokens.  This is the plain-language
reading of "split into words" used by the specification text. -/
def wordsChars (l : List Char) : List String :=
  wordsAux [] l

/-- The whitespace-delimited words of a string. -/
def wordsOf (s : String) : List String :=
  wordsChars s.toList

/-- A JavaScript number restricted to the values produced by `parseInt`:
either an integer or `NaN`. -/
inductive JSNum where
  | nan
  | num (n : Int)
deriving DecidableEq, Repr

/-- Value of a decimal digit run, most significant first. -/
def decDigitsVal (ds : List Char) : Nat :=
  ds.foldl (fun a c => a * 10 + (c.toNat - 48)) 0

/-- Hex digit test (for the `0x` prefix recognized by `parseInt`). -/
def isHexDigit (c : Char) : Bool :=
  c.isDigit || ('a' ≤ c && c ≤ 'f') || ('A' ≤ c && c ≤ 'F')

/-- Value of a single hex digit. -/
def hexDigitVal (c : Char) : Nat :=
  if c.isDigit then c.toNat - 48
  else if 'a' ≤ c && c ≤ 'f' then c.toNat - 87
  else c.toNat - 55

/-- Value of a hex digit run, most significant first. -/
def hexDigitsVal (ds : List Char) : Nat :=
  ds.foldl (fun a c => a * 16 + hexDigitVal c) 0

/-- Model of JavaScript `parseInt(s)` (radix unspecified): skip leading
whitespace, read an optional sign, recognize a `0x`/`0X` hexadecimal prefix,
then parse the maximal digit run; if no digit is read the result is `NaN`. -/
def jsParseInt (s : String) : JSNum :=
  let cs := s.toList.dropWhile isWS
  let signed : Int × List Char :=
    match cs with
    | '-' :: rest => (-1, rest)
    | '+' :: rest => (1, rest)
    | _ => (1, cs)
  match signed with
  | (sign, body) =>
    match body with
    | '0' :: 'x' :: rest =>
      let ds := rest.takeWhile isHexDigit
      if ds.isEmpty then JSNum.nan else JSNum.num (sign * hexDigitsVal ds)
    | '0' :: 'X' :: rest =>
      let ds := rest.takeWhile isHexDigit
      if ds.isEmpty then JSNum.nan else JSNum.num (sign * hexDigitsVal ds)
    | _ =>
      let ds := body.takeWhile Char.isDigit
      if ds.isEmpty then JSNum.nan else JSNum.num (sign * decDigitsVal ds)

/-- JavaScript `a || b` for strings: `b` when `a` is absent or empty
(falsy), else `a`. -/
def jsOrStr (a : Option String) (b : String) : String :=
  match a with
  | none => b
  | some s => if s = "" then b else s

/-- JavaScript `a || b` for optional numeric configuration: `b` when `a` is
absent or `0` (falsy), else `a`. -/
def jsOrNat (a : Option Nat) (b : Nat) : Nat :=
  match a with
  | none => b
  | some n => if n = 0 then b else n

/-! ## Data model (`src/types.ts`) -/

/-- One FAQ summary as returned by the list endpoints. -/
structure FAQListItem where
  faq_number : String
  name : String
  overview : Option String := none
  faq_url : Option String := none
deriving DecidableEq, Repr

/-- Response of the list endpoints. -/
structure FAQListResponse where
  total_count : Int
  faqs : List FAQListItem
deriving DecidableEq, Repr

/-- One answer under a question. -/
structure FAQAnswer where
  answer_text : String
  answer_keywords : Option String := none
deriving DecidableEq, Repr

/-- One question with its answers. -/
structure FAQQuestion where
  question_text : String
  question_keywords : Option String := none
  important : Option Bool := none
  answers : List FAQAnswer
deriving DecidableEq, Repr

/-- Full FAQ content as returned by `getfaqplusqa`. -/
structure FAQContent where
  faq_number : String
  name : String
  overview : Option String := none
  faq_url : Option String := none
  last_edited_timestamp : Option String := none
  question_count : Int
  questions : List FAQQuestion
deriving DecidableEq, Repr

/-- One search result; the relevance score is modelled as a rational. -/
structure SearchResult where
  faq_number : String
  faq_name : String
  question : String
  answer : String
  relevance : ℚ
deriving DecidableEq, Repr

/-- Construction configuration of the client. -/
structure ServerConfig where
  apiKey : String
  baseURL : Option String := none
  rateLimitDelay : Option Nat := none
  cacheTimeout : Option Nat := none
deriving DecidableEq, Repr

/-! ## Relevance scoring (`calculateRelevance`, faqsimple-api.ts:183-205) -/

/-- Embedding of `calculateRelevance`: split the lowercased query, question
and answer on whitespace with JavaScript `split(/\s+/)` semantics, count the
query words contained in some question word and in some answer word, and
weight the two fractions 0.7 / 0.3. -/
def calculateRelevance (query questionText answerText : String) : ℚ :=
  let queryWords := jsSplitWS (jsToLower query)
  let questionWords := jsSplitWS (jsToLower questionText)
  let answerWords := jsSplitWS (jsToLower answerText)
  let questionMatches :=
    queryWords.countP (fun queryWord => questionWords.any (fun word => listIncludes queryWord.toList word.toList))
  let answerMatches :=
    queryWords.countP (fun queryWord => answerWords.any (fun word => listIncludes queryWord.toList word.toList))
  (questionMatches : ℚ) / (queryWords.length : ℚ) * (7 / 10) +
    (answerMatches : ℚ) / (queryWords.length : ℚ) * (3 / 10)

/-- The specification's reference definition of the relevance score (spec
§4.4 step 5), with "split … into query words" read as the whitespace-delimited
words (no empty tokens): per query word, test case-insensitive containment in
some word of the question and of the answer, and weight the two match
fractions 0.7 / 0.3. -/
def specRelevance (query questionText answerText : String) : ℚ :=
  let queryWords := wordsOf (jsToLower query)
  let questionWords := wordsOf (jsToLower questionText)
  let answerWords := wordsOf (jsToLower answerText)
  let qMatches :=
    queryWords.countP (fun queryWord => questionWords.any (fun word => listIncludes queryWord.toList word.toList))
  let aMatches :=
    queryWords.countP (fun queryWord => answerWords.any (fun word => listIncludes queryWord.toList word.toList))
  (qMatches : ℚ) / (queryWords.length : ℚ) * (7 / 10) +
    (aMatches : ℚ) / (queryWords.length : ℚ) * (3 / 10)

/-! ## Search scan (`searchFAQs`, faqsimple-api.ts:126-178)

The scan over the fetched FAQ contents is pure once the per-FAQ fetch
outcomes are fixed, so it is embedded as a function of the list of
`(summary, fetch outcome)` pairs, mirroring the nested `for` loops and
`results.push` calls of the source. -/

/-- Error taxonomy of the client (each kind is thrown at a distinct place in
the source and carries the thrown message's payload). -/
inductive APIError where
  | network (msg : String)
  | rateLimited (resetAt : Option JSNum)
  | api (status : Nat) (msg : String)
  | invalidArg (msg : String)
  | configErr (msg : String)
deriving DecidableEq, Repr

/-- The human-readable message of an error, as carried by the thrown
`Error` in the source. -/
def APIError.message : APIError → String
  | .network m => m
  | .rateLimited _ => "Rate limit exceeded"
  | .api status m => "API Error " ++ toString status ++ ": " ++ m
  | .invalidArg m => m
  | .configErr m => m

/-- The search result pushed for a given FAQ summary, question and answer
(faqsimple-api.ts:145-151 and 158-164; both push sites build the same
record). -/
def mkResult (item : FAQListItem) (question : FAQQuestion) (answer : FAQAnswer)
    (query : String) : SearchResult :=
  { faq_number := item.faq_number
    faq_name := item.name
    question := question.question_text
    answer := answer.answer_text
    relevance := calculateRelevance query question.question_text answer.answer_text }

/-- Embedding of the collection phase of `searchFAQs` (the nested loops of
faqsimple-api.ts:134-173): scan the FAQs in order; a failed fetch is caught
and skipped; for each question of a fetched FAQ, a question-substring match
pushes one result per answer, otherwise each answer is tested for a
substring match and pushed when it matches. -/
def searchLoop (query : String)
    (fetches : List (FAQListItem × Except APIError FAQContent)) : List SearchResult :=
  fetches.foldl (fun results p =>
    match p.2 with
    | .error _ => results
    | .ok faqContent =>
      faqContent.questions.foldl (fun results question =>
        if stringIncludes (jsToLower question.question_text) (jsToLower query) then
          question.answers.foldl (fun results answer =>
            results ++ [mkResult p.1 question answer query]) results
        else
          question.answers.foldl (fun results answer =>
            if stringIncludes (jsToLower answer.answer_text) (jsToLower query) then
              results ++ [mkResult p.1 question answer query]
            else results) results) results) []

/-- The comparator of `results.sort((a, b) => b.relevance - a.relevance)`:
`a` may stay before `b` iff the comparator is non-positive there. -/
def relevanceLE (a b : SearchResult) : Bool :=
  b.relevance ≤ a.relevance

/-- Embedding of the ranking phase of `searchFAQs`
(faqsimple-api.ts:176-177): stable sort by descending relevance (JavaScript
`Array.prototype.sort` is stable), then keep the first 10 results. -/
def rankResults (results : List SearchResult) : List SearchResult :=
  (results.mergeSort relevanceLE).take 10

/-- The pure part of `searchFAQs`: collect then rank. -/
def searchScan (query : String)
    (fetches : List (FAQListItem × Except APIError FAQContent)) : List SearchResult :=
  rankResults (searchLoop query fetches)

/-! ## Client state: cache, rate bookkeeping, transport (faqsimple-api.ts:9-121) -/

/-- A value stored in the client's single `Map`-backed cache (the source
stores `any`; the two endpoint families store these two shapes). -/
inductive CacheValue where
  | list (r : FAQListResponse)
  | content (c : FAQContent)
deriving DecidableEq, Repr

/-- One cache entry: payload plus capture time (milliseconds). -/
structure CacheEntry where
  data : CacheValue
  timestamp : Nat
deriving DecidableEq, Repr

/-- Association-list model of the cache `Map`. -/
def cacheLookup (cache : List (String × CacheEntry)) (key : String) : Option CacheEntry :=
  (cache.find? (fun p => p.1 = key)).map Prod.snd

/-- Model of `Map.set`: overwrite the entry for `key`, or append a new
one. -/
def cacheSet (cache : List (String × CacheEntry)) (key : String) (e : CacheEntry) :
    List (String × CacheEntry) :=
  match cache with
  | [] => [(key, e)]
  | p :: rest => if p.1 = key then (key, e) :: rest else p :: cacheSet rest key e

/-- The mutable fields of a `FAQsimpleAPI` instance together with its
immutable configuration. -/
structure ClientState where
  apiKey : String
  baseURL : String
  rateLimitDelay : Nat
  cacheTimeout : Nat
  rateLimitRemaining : JSNum
  rateLimitReset : Option JSNum
  cache : List (String × CacheEntry)
deriving DecidableEq, Repr

/-- Embedding of the constructor (faqsimple-api.ts:18-27): store the
configuration with JavaScript `||` defaulting, then validate the key format;
a key that is empty or does not start with the literal `fs.` raises the
configuration error.  Construction performs no network activity: it is a
pure function of the configuration. -/
def mkClient (config : ServerConfig) : Except APIError ClientState :=
  if config.apiKey = "" || !(jsStartsWith config.apiKey "fs.") then
    .error (.configErr "Invalid API key format. API key must start with \"fs.\"")
  else
    .ok { apiKey := config.apiKey
          baseURL := jsOrStr config.baseURL "https://api.faqsimple.com/v1"
          rateLimitDelay := jsOrNat config.rateLimitDelay 1000
          cacheTimeout := jsOrNat config.cacheTimeout 300000
          rateLimitRemaining := .num 100
          rateLimitReset := none
          cache := [] }

/-- The outcome of one `fetch` call as seen by `makeRequest`: either a
transport-level rejection, or an HTTP response carrying the status, the two
rate-limit headers, the status text, the decoded error-body message (when
present) and the decoded payload. -/
inductive FetchOutcome (α : Type) where
  | networkFailure
  | response (status : Nat) (remainingHeader resetHeader : Option String)
      (statusText : String) (errMessage : Option String) (body : α)

/-- Embedding of `makeRequest` (faqsimple-api.ts:32-78).  A transport-level
failure becomes the fixed network error and touches no state.  Any response
that reached the network first updates both rate-limit fields from the
`x-ratelimit-remaining` / `x-ratelimit-reset` headers with
`parseInt(header || '0')`; then status 429 raises the rate-limit error, any
other non-2xx status raises the API error with the decoded message (falling
back to the status text), and a 2xx status returns the payload. -/
def makeRequest {α : Type} (st : ClientState) (outcome : FetchOutcome α) :
    Except APIError α × ClientState :=
  match outcome with
  | .networkFailure => (.error (.network "Network error: Unable to connect to FAQsimple API"), st)
  | .response status remainingHeader resetHeader statusText errMessage body =>
    let st2 := { st with
      rateLimitRemaining := jsParseInt (jsOrStr remainingHeader "0")
      rateLimitReset := some (jsParseInt (jsOrStr resetHeader "0")) }
    if status = 429 then
      (.error (.rateLimited st2.rateLimitReset), st2)
    else if 200 ≤ status && status < 300 then
      (.ok body, st2)
    else
      (.error (.api status (jsOrStr errMessage statusText)), st2)

/-- Embedding of `getCached` (faqsimple-api.ts:83-92) at time `now`: a
stored entry younger than the configured lifetime is returned as-is with no
transport activity; otherwise the fetch function runs (the returned flag
records that transport was invoked) and, on success, its value overwrites
the entry with a fresh timestamp.  A stale entry is never deleted, only
overwritten. -/
def getCached (st : ClientState) (now : Nat) (key : String)
    (fetchFn : ClientState → Except APIError CacheValue × ClientState) :
    Except APIError CacheValue × ClientState × Bool :=
  match cacheLookup st.cache key with
  | some cached =>
    if (now : Int) - (cached.timestamp : Int) < (st.cacheTimeout : Int) then
      (.ok cached.data, st, false)
    else
      runGetCachedFetch st now key fetchFn
  | none => runGetCachedFetch st now key fetchFn
where
  /-- The miss path: run the fetch, cache its value on success. -/
  runGetCachedFetch (st : ClientState) (now : Nat) (key : String)
      (fetchFn : ClientState → Except APIError CacheValue × ClientState) :
      Except APIError CacheValue × ClientState × Bool :=
    match fetchFn st with
    | (.ok v, st2) =>
      (.ok v, { st2 with cache := cacheSet st2.cache key { data := v, timestamp := now } }, true)
    | (.error e, st2) => (.error e, st2, true)

/-- The external world a search runs against: the outcome the network would
give for the list-with-questions request, the outcome for each per-FAQ
content request, and the current time. -/
structure SearchWorld where
  listOutcome : FetchOutcome FAQListResponse
  contentOutcome : String → FetchOutcome FAQContent
  now : Nat

/-- Read a cached value back at the list-response type (the unchecked
`cached.data as T` cast of the source; under the disjoint key discipline the
other variant never occurs under a list key). -/
def asListResponse : CacheValue → FAQListResponse
  | .list r => r
  | .content _ => { total_count := 0, faqs := [] }

/-- Read a cached value back at the content type (unchecked cast, as
above). -/
def asContent : CacheValue → FAQContent
  | .content c => c
  | .list _ => { faq_number := "", name := "", question_count := 0, questions := [] }

/-- Embedding of `listFAQsAndQuestions` (faqsimple-api.ts:104-108): the
cached request under the fixed key `listfaqsandquestions`. -/
def listFAQsAndQuestions (st : ClientState) (w : SearchWorld) :
    Except APIError FAQListResponse × ClientState × Bool :=
  match getCached st w.now "listfaqsandquestions" (fun s =>
      match makeRequest s w.listOutcome with
      | (.ok r, s2) => (.ok (CacheValue.list r), s2)
      | (.error e, s2) => (.error e, s2)) with
  | (.ok v, st2, invoked) => (.ok (asListResponse v), st2, invoked)
  | (.error e, st2, invoked) => (.error e, st2, invoked)

/-- Embedding of `getFAQContent` (faqsimple-api.ts:113-121): an empty FAQ
number raises the invalid-argument error synchronously, before the cache or
the transport is touched; otherwise the cached request runs under the key
`faq_` + number. -/
def getFAQContent (st : ClientState) (w : SearchWorld) (faqNumber : String) :
    Except APIError FAQContent × ClientState × Bool :=
  if faqNumber = "" then
    (.error (.invalidArg "FAQ number is required"), st, false)
  else
    match getCached st w.now ("faq_" ++ faqNumber) (fun s =>
        match makeRequest s (w.contentOutcome faqNumber) with
        | (.ok c, s2) => (.ok (CacheValue.content c), s2)
        | (.error e, s2) => (.error e, s2)) with
    | (.ok v, st2, invoked) => (.ok (asContent v), st2, invoked)
    | (.error e, st2, invoked) => (.error e, st2, invoked)

/-- Embedding of `searchFAQs` (faqsimple-api.ts:126-178), stateful part.  A
query that trims to the empty string returns immediately: no transport
call, no state change.  Otherwise the FAQ list is obtained (an error there
propagates), each FAQ's content is fetched in scan order — a per-FAQ error
is caught and recorded as a skipped fetch — and the collected outcomes are
scored, sorted and truncated by the pure scan.  The final component counts
transport invocations. -/
def searchFAQs (st : ClientState) (w : SearchWorld) (query : String) :
    Except APIError (List SearchResult) × ClientState × Nat :=
  if jsTrim query = "" then
    (.ok [], st, 0)
  else
    match listFAQsAndQuestions st w with
    | (.error e, st1, invoked) => (.error e, st1, if invoked then 1 else 0)
    | (.ok faqsData, st1, invoked) =>
      let start : List (FAQListItem × Except APIError FAQContent) × ClientState × Nat :=
        ([], st1, if invoked then 1 else 0)
      let scan := faqsData.faqs.foldl (fun acc faq =>
        let (fetched, s, n) := acc
        let (r, s2, inv) := getFAQContent s w faq.faq_number
        (fetched ++ [(faq, r)], s2, n + if inv then 1 else 0)) start
      (.ok (searchScan query scan.1), scan.2.1, scan.2.2)

/-- Embedding of `getRateLimitStatus` (faqsimple-api.ts:210-215): the
remaining count as stored, and the reset time as a truthiness-guarded
conversion of the stored reset value to epoch milliseconds (`null`, `NaN`
and `0` all yield `null`). -/
def getRateLimitStatus (st : ClientState) : JSNum × Option Int :=
  (st.rateLimitRemaining,
    match st.rateLimitReset with
    | some (.num n) => if n = 0 then none else some (n * 1000)
    | _ => none)

/-- Embedding of `clearCache` (faqsimple-api.ts:220-222). -/
def clearCache (st : ClientState) : ClientState :=
  { st with cache := [] }

/-- Status classification of the health probe. -/
inductive HealthStatusKind where
  | ok
  | connectionError
  | authError
  | unknownError
deriving DecidableEq, Repr

/-- Result of the health probe. -/
structure HealthResult where
  status : HealthStatusKind
  message : String
deriving DecidableEq, Repr

/-- Modelled from the spec: the client's `healthCheck` method is absent from
`src/src/faqsimple-api.ts` (only its unit tests and its caller
`performInitialHealthCheck` in `src/src/index.ts` appear).  Per spec §6 and
the tests, it performs a minimal list-summaries call and classifies the
outcome: success is `ok`; a transport-level failure is a connection error; a
401 or 403 API status is an authentication error; anything else lands in an
unclassified bucket carrying the raw error message.  It never throws: it is
a total function of the probe call's outcome. -/
def healthCheck (outcome : Except APIError FAQListResponse) : HealthResult :=
  match outcome with
  | .ok _ => { status := .ok, message := "Connection and authentication successful" }
  | .error (.network _) =>
    { status := .connectionError
      message := "Unable to connect to https://api.faqsimple.io/v1. Please ensure you have a valid connection." }
  | .error (.api status m) =>
    if status = 401 || status = 403 then
      { status := .authError
        message := "Your API Key seems invalid, please contact FAQsimple support (support@faqsimple.com) for assistance if needed." }
    else
      { status := .unknownError, message := (APIError.api status m).message }
  | .error e => { status := .unknownError, message := e.message }

/-! ## Fixtures used by witnesses -/

/-- A freshly constructed client with a well-formed key and default
configuration. -/
def sampleState : ClientState :=
  { apiKey := "fs.test.key"
    baseURL := "https://api.faqsimple.com/v1"
    rateLimitDelay := 1000
    cacheTimeout := 300000
    rateLimitRemaining := .num 100
    rateLimitReset := none
    cache := [] }

/-- A world in which every request would fail at the transport level. -/
def sampleWorld : SearchWorld :=
  { listOutcome := .networkFailure
    contentOutcome := fun _ => .networkFailure
    now := 0 }

/-- The per-question emission rule as the specification states it: a
case-insensitive substring match of the query in the question text emits
one result per answer, with no per-answer substring test; otherwise exactly
the answers whose text contains the query case-insensitively are emitted. -/
def questionRule (item : FAQListItem) (query : String) (question : FAQQuestion) :
    List SearchResult :=
  if stringIncludes (jsToLower question.question_text) (jsToLower query) then
    question.answers.map (fun answer => mkResult item question answer query)
  else
    (question.answers.filter (fun answer =>
        stringIncludes (jsToLower answer.answer_text) (jsToLower query))).map
      (fun answer => mkResult item question answer query)

/-- The per-FAQ contribution to a search: nothing for a failed fetch, the
per-question rule flat-mapped over the questions otherwise. -/
def faqRule (query : String) (p : FAQListItem × Except APIError FAQContent) :
    List SearchResult :=
  match p.2 with
  | .error _ => []
  | .ok content => content.questions.flatMap (questionRule p.1 query)

/-- Non-emptiness test for split tokens. -/
def notEmpty (s : String) : Bool := !(s == "")

/-- A sample cached payload. -/
def sampleValue : CacheValue := .list { total_count := 0, faqs := [] }

/-- A fetch function that succeeds with `sampleValue` and touches no
state. -/
def sampleFetch : ClientState → Except APIError CacheValue × ClientState :=
  fun s => (.ok sampleValue, s)

/-- The state `sampleState` after `sampleValue` was cached under the key
`listfaqs` at time 0. -/
def sampleStored : ClientState :=
  { sampleState with
    cache := cacheSet sampleState.cache "listfaqs" { data := sampleValue, timestamp := 0 } }

/-- A sample FAQ summary. -/
def sampleItem : FAQListItem := { faq_number := "FAQ001", name := "Test FAQ" }

/-- A world whose list request succeeds with an empty FAQ list. -/
def sampleListWorld : SearchWorld :=
  { listOutcome := .response 200 (some "99") (some "0") "OK" none
      { total_count := 0, faqs := [] }
    contentOutcome := fun _ => .networkFailure
    now := 0 }

/-! ## Theorems -/

/-- C8: a query that is empty or entirely whitespace makes `searchFAQs`
return the empty result list immediately: the transport is never invoked
(zero network calls) and the client state — cache and rate fields alike —
is returned unchanged. -/
theorem searchFAQs_whitespace_query (st : ClientState) (w : SearchWorld) (query : String)
    (h : jsTrim query = "") :
    searchFAQs st w query = (.ok [], st, 0) := by
  simp [searchFAQs, h]

/-- Witness for C8 at the whitespace query `"   "`. -/
theorem searchFAQs_whitespace_query_witness :
    searchFAQs sampleState sampleWorld "   " = (.ok [], sampleState, 0) :=
  searchFAQs_whitespace_query sampleState sampleWorld "   " (by decide)

/-- C10: a freshly constructed client reports 100 remaining requests and a
null reset time from the rate-status accessor — fabricated initial values,
set before any transport call. -/
theorem rateLimitStatus_initial (config : ServerConfig) (st : ClientState)
    (h : mkClient config = .ok st) :
    getRateLimitStatus st = (.num 100, none) := by
  unfold mkClient at h
  split at h
  · exact absurd h (by simp)
  · cases h
    rfl

/-- Witness for C10 on a concrete configuration. -/
theorem rateLimitStatus_initial_witness :
    getRateLimitStatus sampleState = (.num 100, none) :=
  rateLimitStatus_initial { apiKey := "fs.test.key" } sampleState rfl

/-- Shortening a pattern by its last character preserves the prefix test. -/
theorem isPrefixOf_append_right (a : Char) :
    ∀ (p l : List Char), (p ++ [a]).isPrefixOf l = true → p.isPrefixOf l = true := by
  intro p
  induction p with
  | nil => intro l h; simp
  | cons b bs ih =>
    intro l h
    cases l with
    | nil => simp at h
    | cons c cs =>
      rw [List.cons_append, List.isPrefixOf_cons₂] at h
      rw [List.isPrefixOf_cons₂]
      rcases Bool.and_eq_true_iff.mp h with ⟨hbc, hrest⟩
      exact Bool.and_eq_true_iff.mpr ⟨hbc, ih cs hrest⟩

/-- C6: constructing a client whose credential does not start with the
sentinel literal `fs.` — in particular any credential that does not even
start with the two characters `fs` — fails with the configuration error,
with no network activity possible (construction is a pure function); and
fetching full content with an empty identifier fails synchronously with the
invalid-argument error, leaving the client state (cache and rate fields)
unchanged and never invoking the transport. -/
theorem credential_and_identifier_guards :
    (∀ config : ServerConfig, jsStartsWith config.apiKey "fs." = false →
        mkClient config =
          .error (.configErr "Invalid API key format. API key must start with \"fs.\"")) ∧
    (∀ config : ServerConfig, jsStartsWith config.apiKey "fs" = false →
        mkClient config =
          .error (.configErr "Invalid API key format. API key must start with \"fs.\"")) ∧
    (∀ (st : ClientState) (w : SearchWorld),
        getFAQContent st w "" = (.error (.invalidArg "FAQ number is required"), st, false)) := by
  refine ⟨fun config h => by simp [mkClient, h], fun config h => ?_, fun st w => by simp [getFAQContent]⟩
  have h3 : jsStartsWith config.apiKey "fs." = false := by
    by_contra hc
    rw [Bool.not_eq_false, jsStartsWith] at hc
    have h2 : ("fs".toList).isPrefixOf config.apiKey.toList = true :=
      isPrefixOf_append_right '.' "fs".toList config.apiKey.toList (by exact hc)
    rw [jsStartsWith] at h
    rw [h] at h2
    exact Bool.noConfusion h2
  simp [mkClient, h3]

/-- Witness for C6 at the malformed credential `"not-a-key"`. -/
theorem credential_and_identifier_guards_witness :
    mkClient { apiKey := "not-a-key" } =
      .error (.configErr "Invalid API key format. API key must start with \"fs.\"") ∧
    getFAQContent sampleState sampleWorld "" =
      (.error (.invalidArg "FAQ number is required"), sampleState, false) :=
  ⟨credential_and_identifier_guards.1 { apiKey := "not-a-key" } (by decide),
   credential_and_identifier_guards.2.2 sampleState sampleWorld⟩

/-- C9: the health probe is a total classifier of the minimal
list-summaries call's outcome — it cannot throw — and it lands in exactly
the advertised buckets: success is `ok`; a transport-level failure is the
connection-error bucket; an API error with HTTP status 401 or 403 is the
authentication-error bucket; any other API status lands in the unclassified
bucket carrying the raw error message. -/
theorem healthCheck_classifies (outcome : Except APIError FAQListResponse) :
    (∀ r, outcome = .ok r → (healthCheck outcome).status = .ok) ∧
    (∀ m, outcome = .error (.network m) → (healthCheck outcome).status = .connectionError) ∧
    (∀ status m, outcome = .error (.api status m) → (status = 401 ∨ status = 403) →
        (healthCheck outcome).status = .authError) ∧
    (∀ status m, outcome = .error (.api status m) → status ≠ 401 → status ≠ 403 →
        (healthCheck outcome).status = .unknownError ∧
        (healthCheck outcome).message = (APIError.api status m).message) := by
  refine ⟨fun r h => by subst h; rfl,
          fun m h => by subst h; rfl,
          fun status m h hs => ?_,
          fun status m h h1 h3 => ?_⟩
  · subst h
    rcases hs with hs | hs <;> subst hs <;> rfl
  · subst h
    have : (status = 401 || status = 403) = false := by
      simp [h1, h3]
    simp [healthCheck, this]

/-- Witness for C9 at a 403 outcome. -/
theorem healthCheck_classifies_witness :
    (healthCheck (.error (.api 403 "Forbidden"))).status = .authError :=
  (healthCheck_classifies (.error (.api 403 "Forbidden"))).2.2.1 403 "Forbidden" rfl (Or.inr rfl)

/-- Looking a key up right after setting it yields the new entry. -/
theorem cacheLookup_cacheSet_self (cache : List (String × CacheEntry)) (key : String)
    (e : CacheEntry) : cacheLookup (cacheSet cache key e) key = some e := by
  induction cache with
  | nil => simp [cacheSet, cacheLookup, List.find?]
  | cons p rest ih =>
    by_cases hp : p.1 = key
    · simp [cacheSet, hp, cacheLookup, List.find?]
    · simpa [cacheSet, hp, cacheLookup, List.find?] using ih

/-- C5: the cache contract of `getCached`.  A first call for an absent key
invokes the transport once and stores the fetched value with the call's
timestamp; a second call for that key within the configured lifetime
returns exactly the stored value with no transport invocation and no state
change; a call at or past the lifetime invokes the transport again; and on
the stale path the old entry is never evicted — a failing refetch leaves
the state exactly as the fetch function left it, and a successful refetch
replaces the entry by overwriting it with the new value and timestamp. -/
theorem getCached_cache_contract (st st1 stA : ClientState) (key : String) (v : CacheValue)
    (t0 t1 : Nat) (fetchFn fetchFn2 : ClientState → Except APIError CacheValue × ClientState)
    (hmiss : cacheLookup st.cache key = none)
    (hfetch : fetchFn st = (.ok v, st1))
    (hA : stA = { st1 with cache := cacheSet st1.cache key { data := v, timestamp := t0 } }) :
    getCached st t0 key fetchFn = (.ok v, stA, true) ∧
    cacheLookup stA.cache key = some { data := v, timestamp := t0 } ∧
    ((t1 : Int) - (t0 : Int) < (stA.cacheTimeout : Int) →
        getCached stA t1 key fetchFn2 = (.ok v, stA, false)) ∧
    (¬ ((t1 : Int) - (t0 : Int) < (stA.cacheTimeout : Int)) →
        (getCached stA t1 key fetchFn2).2.2 = true ∧
        (∀ e st2, fetchFn2 stA = (.error e, st2) →
            getCached stA t1 key fetchFn2 = (.error e, st2, true)) ∧
        (∀ v2 st2, fetchFn2 stA = (.ok v2, st2) →
            getCached stA t1 key fetchFn2 =
              (.ok v2, { st2 with
                cache := cacheSet st2.cache key { data := v2, timestamp := t1 } }, true))) := by
  have hlook : cacheLookup stA.cache key = some { data := v, timestamp := t0 } := by
    rw [hA]
    exact cacheLookup_cacheSet_self st1.cache key _
  refine ⟨?_, hlook, ?_, ?_⟩
  · simp [getCached, hmiss, getCached.runGetCachedFetch, hfetch, hA]
  · intro hfresh
    simp [getCached, hlook, hfresh]
  · intro hstale
    refine ⟨?_, ?_, ?_⟩
    · rcases h2 : fetchFn2 stA with ⟨r, st2⟩
      cases r with
      | ok v2 => simp [getCached, hlook, hstale, getCached.runGetCachedFetch, h2]
      | error e => simp [getCached, hlook, hstale, getCached.runGetCachedFetch, h2]
    · intro e st2 h2
      simp [getCached, hlook, hstale, getCached.runGetCachedFetch, h2]
    · intro v2 st2 h2
      simp [getCached, hlook, hstale, getCached.runGetCachedFetch, h2]

/-- Witness for C5: a concrete first call at time 0, a hit at time 1, and a
transport re-invocation at time 300000 (the default lifetime). -/
theorem getCached_cache_contract_witness :
    getCached sampleState 0 "listfaqs" sampleFetch = (.ok sampleValue, sampleStored, true) ∧
    getCached sampleStored 1 "listfaqs" sampleFetch = (.ok sampleValue, sampleStored, false) ∧
    (getCached sampleStored 300000 "listfaqs" sampleFetch).2.2 = true := by
  have h := getCached_cache_contract sampleState sampleState sampleStored "listfaqs" sampleValue
    0 300000 sampleFetch sampleFetch rfl rfl rfl
  have h2 := getCached_cache_contract sampleState sampleState sampleStored "listfaqs" sampleValue
    0 1 sampleFetch sampleFetch rfl rfl rfl
  exact ⟨h.1, h2.2.2.1 (by decide), (h.2.2.2 (by decide)).1⟩

/-- C7 counterexample: a response whose `x-ratelimit-remaining` header is
the non-numeric string `"abc"` stores `parseInt("abc") = NaN` in the rate
tracker — not `0`, and not a non-negative integer — refuting the claim that
non-numeric header values coerce to 0. -/
theorem rateRemaining_nonNumeric_counterexample :
    (makeRequest sampleState
        (.response 200 (some "abc") (some "1640995200") "OK" none
          (0 : Nat))).2.rateLimitRemaining = JSNum.nan ∧
    JSNum.nan ≠ JSNum.num 0 := by
  constructor
  · rfl
  · decide

/-- C7 amended: after every Transport call that reached the network —
whatever the HTTP status, including 429 and other non-2xx — both rate
fields are updated from the `remaining` and `reset` headers as
`parseInt(header || '0')`: a missing (or empty) header coerces to 0, while
a present non-numeric header stores `NaN`, so non-negativity of the stored
value is not guaranteed. -/
theorem makeRequest_updates_rate {α : Type} (st st2 : ClientState) (status : Nat)
    (remainingHeader resetHeader : Option String) (statusText : String)
    (errMessage : Option String) (body : α)
    (h2 : st2 = (makeRequest st
        (.response status remainingHeader resetHeader statusText errMessage body)).2) :
    st2.rateLimitRemaining = jsParseInt (jsOrStr remainingHeader "0") ∧
    st2.rateLimitReset = some (jsParseInt (jsOrStr resetHeader "0")) ∧
    (remainingHeader = none → st2.rateLimitRemaining = .num 0) ∧
    (resetHeader = none → st2.rateLimitReset = some (.num 0)) := by
  have hst : st2 = { st with
      rateLimitRemaining := jsParseInt (jsOrStr remainingHeader "0")
      rateLimitReset := some (jsParseInt (jsOrStr resetHeader "0")) } := by
    rw [h2]
    simp only [makeRequest]
    split
    · rfl
    · split <;> rfl
  refine ⟨by rw [hst], by rw [hst], fun hn => ?_, fun hn => ?_⟩
  · rw [hst, hn]
    rfl
  · rw [hst, hn]
    rfl

/-- Folding an append-only accumulator over a list appends the flat map of
the per-item contributions. -/
theorem foldl_eq_append_flatMap {α β : Type _} (f : List β → α → List β)
    (h : α → List β) (hf : ∀ rs x, f rs x = rs ++ h x) :
    ∀ (l : List α) (init : List β), l.foldl f init = init ++ l.flatMap h
  | [], init => by simp
  | x :: xs, init => by
    rw [List.foldl_cons, foldl_eq_append_flatMap f h hf xs, hf, List.flatMap_cons,
      List.append_assoc]

/-- Flat-mapping singletons is mapping. -/
theorem flatMap_single {α β : Type _} (l : List α) (g : α → β) :
    l.flatMap (fun a => [g a]) = l.map g := by
  induction l with
  | nil => rfl
  | cons a t ih => simp [ih]

/-- Flat-mapping a guarded singleton is filtering then mapping. -/
theorem flatMap_ite_filter {α β : Type _} (l : List α) (p : α → Bool) (g : α → β) :
    l.flatMap (fun a => if p a then [g a] else []) = (l.filter p).map g := by
  induction l with
  | nil => rfl
  | cons a t ih => by_cases h : p a <;> simp [h, ih]

/-- The collection loop of `searchFAQs` is the flat map of the per-FAQ rule
(shared helper). -/
theorem searchLoop_eq (query : String)
    (fetches : List (FAQListItem × Except APIError FAQContent)) :
    searchLoop query fetches = fetches.flatMap (faqRule query) := by
  unfold searchLoop
  rw [foldl_eq_append_flatMap _ (faqRule query) ?hf]
  · simp
  case hf =>
    intro rs p
    rcases p with ⟨item, r⟩
    cases r with
    | error e => simp [faqRule]
    | ok content =>
      show content.questions.foldl _ rs = rs ++ faqRule query (item, .ok content)
      rw [foldl_eq_append_flatMap _ (questionRule item query) ?hq]
      · rfl
      case hq =>
        intro rs2 question
        by_cases hm : stringIncludes (jsToLower question.question_text) (jsToLower query) = true
        · show (if _ then _ else _) = _
          rw [if_pos hm,
            foldl_eq_append_flatMap _
              (fun answer => [mkResult item question answer query]) (fun _ _ => rfl),
            flatMap_single, questionRule, if_pos hm]
        · show (if _ then _ else _) = _
          rw [if_neg hm,
            foldl_eq_append_flatMap _
              (fun answer =>
                if stringIncludes (jsToLower answer.answer_text) (jsToLower query) then
                  [mkResult item question answer query]
                else []) ?ha,
            flatMap_ite_filter, questionRule, if_neg hm]
          case ha =>
            intro rs3 answer
            by_cases ha2 : stringIncludes (jsToLower answer.answer_text) (jsToLower query) = true
            · simp [ha2]
            · simp [ha2]

/-- C2: for every fetched FAQ and every question in it, the search scan
emits results by the stated rule — each question contributes exactly once:
all of its answers when the query is a case-insensitive substring of the
question text (no answer test is performed), and otherwise exactly the
answers whose text contains the query case-insensitively (zero, one or
several results per question). -/
theorem searchLoop_question_rule (query : String)
    (fetches : List (FAQListItem × Except APIError FAQContent)) :
    searchLoop query fetches = fetches.flatMap (fun p =>
      match p.2 with
      | .error _ => []
      | .ok content => content.questions.flatMap (questionRule p.1 query)) := by
  rw [searchLoop_eq]
  rfl

/-- The sort comparator is transitive. -/
theorem relevanceLE_trans (a b c : SearchResult)
    (h1 : relevanceLE a b) (h2 : relevanceLE b c) : relevanceLE a c := by
  simp only [relevanceLE, decide_eq_true_eq] at *
  exact le_trans h2 h1

/-- The sort comparator is total. -/
theorem relevanceLE_total (a b : SearchResult) : relevanceLE a b || relevanceLE b a := by
  simp only [relevanceLE, Bool.or_eq_true, decide_eq_true_eq]
  exact le_total b.relevance a.relevance

/-- Under the descending-relevance stable sort, the elements of any fixed
score keep exactly their collection order (shared helper). -/
theorem mergeSort_filter_score (results : List SearchResult) (c : ℚ) :
    (results.mergeSort relevanceLE).filter (fun r => decide (r.relevance = c)) =
      results.filter (fun r => decide (r.relevance = c)) := by
  have pw : (results.filter (fun r => decide (r.relevance = c))).Pairwise
      (fun a b => relevanceLE a b) := by
    apply List.pairwise_of_forall_mem_list
    intro a ha b hb
    have ha2 : a.relevance = c := by simpa using (List.mem_filter.mp ha).2
    have hb2 : b.relevance = c := by simpa using (List.mem_filter.mp hb).2
    simp [relevanceLE, ha2, hb2]
  have hsub : List.Sublist (results.filter (fun r => decide (r.relevance = c)))
      (results.mergeSort relevanceLE) :=
    List.sublist_mergeSort relevanceLE_trans relevanceLE_total pw (List.filter_sublist _)
  have hsub2 := hsub.filter (fun r => decide (r.relevance = c))
  rw [List.filter_filter] at hsub2
  have hsub3 : List.Sublist (results.filter (fun r => decide (r.relevance = c)))
      ((results.mergeSort relevanceLE).filter (fun r => decide (r.relevance = c))) := by
    simpa using hsub2
  have hlen : ((results.mergeSort relevanceLE).filter
      (fun r => decide (r.relevance = c))).length =
      (results.filter (fun r => decide (r.relevance = c))).length :=
    ((results.mergeSort_perm relevanceLE).filter _).length_eq
  exact (hsub3.eq_of_length hlen.symm).symm

/-- C3: the ranked search output has at most 10 entries — a bound built
into the scan, independent of any caller-supplied limit — is sorted by
non-increasing relevance, and breaks score ties stably: for every score,
the survivors of that score appear in exactly their collection (scan)
order, as a prefix-closed sublist of the collected results of that score. -/
theorem search_capped_sorted_stable (query : String)
    (fetches : List (FAQListItem × Except APIError FAQContent)) :
    (searchScan query fetches).length ≤ 10 ∧
    List.Pairwise (fun a b => b.relevance ≤ a.relevance) (searchScan query fetches) ∧
    ∀ c : ℚ, List.Sublist
        ((searchScan query fetches).filter (fun r => decide (r.relevance = c)))
        ((searchLoop query fetches).filter (fun r => decide (r.relevance = c))) := by
  unfold searchScan rankResults
  refine ⟨List.length_take_le 10 _, ?_, ?_⟩
  · have hs := List.sorted_mergeSort relevanceLE_trans relevanceLE_total
      (searchLoop query fetches)
    have hs2 := List.Pairwise.sublist (List.take_sublist 10 _) hs
    exact hs2.imp (fun h => by simpa [relevanceLE] using h)
  · intro c
    have h1 := (List.take_sublist 10
        ((searchLoop query fetches).mergeSort relevanceLE)).filter
      (fun r => decide (r.relevance = c))
    rw [mergeSort_filter_score] at h1
    exact h1

/-- C4: a single failed per-FAQ content fetch inside a search is skipped
without aborting: the collected results and the final ranked output over a
scan containing one failed fetch equal those over the scan without it, and
whenever the FAQ list itself is obtained, `searchFAQs` returns a result
list (never an error) regardless of per-FAQ fetch failures. -/
theorem search_skips_failed_faq (query : String)
    (pre post : List (FAQListItem × Except APIError FAQContent))
    (item : FAQListItem) (e : APIError) :
    searchScan query (pre ++ (item, Except.error e) :: post) = searchScan query (pre ++ post) ∧
    searchLoop query (pre ++ (item, Except.error e) :: post) = searchLoop query (pre ++ post) ∧
    (∀ (st st1 : ClientState) (w : SearchWorld) (r : FAQListResponse) (inv : Bool),
        jsTrim query ≠ "" →
        listFAQsAndQuestions st w = (.ok r, st1, inv) →
        ∃ results, (searchFAQs st w query).1 = .ok results) := by
  have hloop : searchLoop query (pre ++ (item, Except.error e) :: post) =
      searchLoop query (pre ++ post) := by
    rw [searchLoop_eq, searchLoop_eq]
    simp [faqRule]
  refine ⟨?_, hloop, ?_⟩
  · unfold searchScan
    rw [hloop]
  · intro st st1 w r inv hq hlist
    unfold searchFAQs
    rw [if_neg hq, hlist]
    exact ⟨_, rfl⟩

/-- Witness for C4: dropping a concrete failed fetch and a concrete search
that returns a result list although every per-FAQ fetch would fail. -/
theorem search_skips_failed_faq_witness :
    searchScan "hello" [(sampleItem, Except.error (.network "boom"))] = searchScan "hello" [] ∧
    (∃ results, (searchFAQs sampleState sampleListWorld "hello").1 = .ok results) :=
  ⟨(search_skips_failed_faq "hello" [] [] sampleItem (.network "boom")).1,
   (search_skips_failed_faq "hello" [] [] sampleItem (.network "boom")).2.2
     sampleState _ sampleListWorld _ _ (by decide) rfl⟩

/-- Witness for C7 (amended) at a 429 response with both headers missing. -/
theorem makeRequest_updates_rate_witness :
    (makeRequest sampleState
        (.response 429 none none "Too Many Requests" none (0 : Nat))).2.rateLimitRemaining =
      .num 0 ∧
    (makeRequest sampleState
        (.response 429 none none "Too Many Requests" none (0 : Nat))).2.rateLimitReset =
      some (.num 0) := by
  have h := makeRequest_updates_rate sampleState
    (makeRequest sampleState (.response 429 none none "Too Many Requests" none (0 : Nat))).2
    429 none none "Too Many Requests" none (0 : Nat) rfl
  exact ⟨h.2.2.1 rfl, h.2.2.2 rfl⟩

/-- Rebuilding a string from its character list is the identity. -/
theorem mk_toList (s : String) : String.mk s.toList = s := rfl

/-- The worker `jsSplitAux` never returns the empty list. -/
theorem jsSplitAux_ne_nil (l : List Char) : ∀ b, jsSplitAux b l ≠ [] := by
  induction l with
  | nil => intro b; simp [jsSplitAux]
  | cons c rest ih =>
    intro b
    by_cases hc : isWS c = true
    · cases b with
      | false => simp [jsSplitAux, hc]
      | true =>
        simp only [jsSplitAux, hc, if_true]
        exact ih true
    · rcases hX : jsSplitAux false rest with _ | ⟨s, ss⟩ <;>
        simp [jsSplitAux, hc, consToks, hX]

/-- Prepending nothing to the first token changes nothing (for the
non-empty lists `jsSplitAux` produces). -/
theorem consToks_nil (lst : List String) (h : lst ≠ []) : consToks [] lst = lst := by
  cases lst with
  | nil => exact absurd rfl h
  | cons s ss => simp [consToks, mk_toList]

/-- Prepending twice to the first token composes. -/
theorem consToks_consToks (t : List Char) (c : Char) (lst : List String) :
    consToks t (consToks [c] lst) = consToks (t ++ [c]) lst := by
  cases lst with
  | nil => simp [consToks]
  | cons s ss => simp [consToks]

/-- Unfolding: split at a whitespace character, outside a separator run. -/
theorem jsSplitAux_cons_ws_false (c : Char) (rest : List Char) (hc : isWS c = true) :
    jsSplitAux false (c :: rest) = "" :: jsSplitAux true rest := by
  simp [jsSplitAux, hc]

/-- Unfolding: split at a whitespace character, inside a separator run. -/
theorem jsSplitAux_cons_ws_true (c : Char) (rest : List Char) (hc : isWS c = true) :
    jsSplitAux true (c :: rest) = jsSplitAux true rest := by
  simp [jsSplitAux, hc]

/-- Unfolding: split at a non-whitespace character. -/
theorem jsSplitAux_cons_nws (b : Bool) (c : Char) (rest : List Char) (hc : isWS c = false) :
    jsSplitAux b (c :: rest) = consToks [c] (jsSplitAux false rest) := by
  cases b <;> simp [jsSplitAux, hc]

/-- Unfolding: words at a whitespace character with no word in progress. -/
theorem wordsAux_cons_ws_nil (c : Char) (rest : List Char) (hc : isWS c = true) :
    wordsAux [] (c :: rest) = wordsAux [] rest := by
  simp [wordsAux, hc]

/-- Unfolding: words at a whitespace character with a word in progress. -/
theorem wordsAux_cons_ws_cons (a : Char) (acc : List Char) (c : Char) (rest : List Char)
    (hc : isWS c = true) :
    wordsAux (a :: acc) (c :: rest) = String.mk (a :: acc) :: wordsAux [] rest := by
  simp [wordsAux, hc]

/-- Unfolding: words at a non-whitespace character. -/
theorem wordsAux_cons_nws (acc : List Char) (c : Char) (rest : List Char)
    (hc : isWS c = false) :
    wordsAux acc (c :: rest) = wordsAux (acc ++ [c]) rest := by
  simp [wordsAux, hc]

/-- Dropping the empty tokens of a JavaScript whitespace split yields
exactly the whitespace-delimited words, uniformly in the token being
built. -/
theorem splitAux_filter_words (l : List Char) :
    (∀ t : List Char, (consToks t (jsSplitAux false l)).filter notEmpty = wordsAux t l) ∧
    (jsSplitAux true l).filter notEmpty = wordsAux [] l := by
  induction l with
  | nil =>
    constructor
    · intro t
      cases t with
      | nil => rfl
      | cons c t2 =>
        have hne : String.mk (c :: t2) ≠ "" := by
          simp [String.ext_iff]
        simp [jsSplitAux, consToks, wordsAux, notEmpty, hne]
    · rfl
  | cons c rest ih =>
    obtain ⟨ihA, ihB⟩ := ih
    constructor
    · intro t
      cases hc : isWS c with
      | true =>
        rw [jsSplitAux_cons_ws_false c rest hc]
        cases t with
        | nil =>
          rw [wordsAux_cons_ws_nil c rest hc]
          simp [consToks, notEmpty, ihB]
        | cons c2 t2 =>
          have hne : String.mk (c2 :: t2) ≠ "" := by
            simp [String.ext_iff]
          rw [wordsAux_cons_ws_cons c2 t2 c rest hc]
          simp [consToks, notEmpty, hne, ihB]
      | false =>
        rw [jsSplitAux_cons_nws false c rest hc, consToks_consToks, ihA (t ++ [c]),
          wordsAux_cons_nws t c rest hc]
    · cases hc : isWS c with
      | true =>
        rw [jsSplitAux_cons_ws_true c rest hc, wordsAux_cons_ws_nil c rest hc, ihB]
      | false =>
        rw [jsSplitAux_cons_nws true c rest hc, ihA [c], wordsAux_cons_nws [] c rest hc]
        rfl

/-- Dropping the empty tokens of the split yields the words. -/
theorem jsSplitChars_filter (l : List Char) :
    (jsSplitChars l).filter notEmpty = wordsChars l := by
  have h := (splitAux_filter_words l).1 []
  rwa [consToks_nil _ (jsSplitAux_ne_nil l false)] at h

/-- Dropping the empty tokens of `split(/\s+/)` yields the word list
(string form). -/
theorem jsSplitWS_filter (s : String) : (jsSplitWS s).filter notEmpty = wordsOf s :=
  jsSplitChars_filter s.toList

/-- When the split has no empty token at all, it already is the word
list. -/
theorem jsSplitWS_eq_words (s : String) (h : "" ∉ jsSplitWS s) :
    jsSplitWS s = wordsOf s := by
  have hself : (jsSplitWS s).filter notEmpty = jsSplitWS s :=
    List.filter_eq_self.mpr (fun a ha => by
      have hne : a ≠ "" := fun e => h (e ▸ ha)
      simp [notEmpty, hne])
  rw [← hself, jsSplitWS_filter]

/-- A predicate that rejects the empty string may ignore empty tokens. -/
theorem any_filter_notEmpty (l : List String) (f : String → Bool) (hf : f "" = false) :
    l.any f = (l.filter notEmpty).any f := by
  induction l with
  | nil => rfl
  | cons a t ih =>
    by_cases ha : a = ""
    · subst ha
      simp [notEmpty, hf, ih]
    · have hne : notEmpty a = true := by simp [notEmpty, ha]
      simp [hne, ih]

/-- The source's relevance computation agrees with the specification's
reference definition whenever the query splits into non-empty words only
(equivalently: the query has no leading or trailing whitespace), for every
question and answer text (shared helper). -/
theorem relevance_refines (query questionText answerText : String)
    (hq : "" ∉ jsSplitWS (jsToLower query)) :
    calculateRelevance query questionText answerText =
      specRelevance query questionText answerText := by
  have hqw : jsSplitWS (jsToLower query) = wordsOf (jsToLower query) :=
    jsSplitWS_eq_words _ hq
  have hcount : ∀ text : String,
      List.countP (fun queryWord =>
          (jsSplitWS (jsToLower text)).any fun word => listIncludes queryWord.toList word.toList)
        (wordsOf (jsToLower query)) =
      List.countP (fun queryWord =>
          (wordsOf (jsToLower text)).any fun word => listIncludes queryWord.toList word.toList)
        (wordsOf (jsToLower query)) := by
    intro text
    apply List.countP_congr
    intro x hx
    have hxne : x ≠ "" := by
      intro e
      subst e
      rw [← hqw] at hx
      exact hq hx
    have hnil : x.toList ≠ [] := by
      intro e
      exact hxne (by rw [← mk_toList x, e])
    have hf : (fun word => listIncludes x.toList word.toList) "" = false := by
      show listIncludes x.toList [] = false
      show x.toList.isEmpty = false
      cases hl : x.toList with
      | nil => exact absurd hl hnil
      | cons a as => rfl
    rw [any_filter_notEmpty _ _ hf, jsSplitWS_filter]
  simp only [calculateRelevance, specRelevance, hqw, hcount]

/-- C1 counterexample: the specification's worked example is wrong on the
code.  For query `"password reset"` against question
`"How do I reset my password?"` and answer
`"Click forgot password and follow the steps."`, the word `reset` occurs in
no word of the answer, so the answer fraction is 1/2 and the score is
0.85, not 1.0. -/
theorem relevance_example_not_one :
    calculateRelevance "password reset" "How do I reset my password?"
      "Click forgot password and follow the steps." ≠ 1 := by
  have c1 : List.countP (fun queryWord =>
      (jsSplitWS (jsToLower "How do I reset my password?")).any fun word =>
        listIncludes queryWord.toList word.toList)
      (jsSplitWS (jsToLower "password reset")) = 2 := by decide
  have c2 : List.countP (fun queryWord =>
      (jsSplitWS (jsToLower "Click forgot password and follow the steps.")).any fun word =>
        listIncludes queryWord.toList word.toList)
      (jsSplitWS (jsToLower "password reset")) = 1 := by decide
  have hlen : (jsSplitWS (jsToLower "password reset")).length = 2 := by decide
  simp only [calculateRelevance, c1, c2, hlen]
  norm_num

/-- C1 (amended): the relevance score equals the specification's reference
definition for every query that splits into non-empty words only — i.e.
without leading or trailing whitespace, where the JavaScript split would
add empty always-matching tokens — and the worked example scores exactly
0.85 (17/20), not 1.0. -/
theorem relevance_matches_spec :
    (∀ query questionText answerText : String,
        "" ∉ jsSplitWS (jsToLower query) →
        calculateRelevance query questionText answerText =
          specRelevance query questionText answerText) ∧
    calculateRelevance "password reset" "How do I reset my password?"
      "Click forgot password and follow the steps." = 17 / 20 := by
  refine ⟨relevance_refines, ?_⟩
  have c1 : List.countP (fun queryWord =>
      (jsSplitWS (jsToLower "How do I reset my password?")).any fun word =>
        listIncludes queryWord.toList word.toList)
      (jsSplitWS (jsToLower "password reset")) = 2 := by decide
  have c2 : List.countP (fun queryWord =>
      (jsSplitWS (jsToLower "Click forgot password and follow the steps.")).any fun word =>
        listIncludes queryWord.toList word.toList)
      (jsSplitWS (jsToLower "password reset")) = 1 := by decide
  have hlen : (jsSplitWS (jsToLower "password reset")).length = 2 := by decide
  simp only [calculateRelevance, c1, c2, hlen]
  norm_num

/-- Witness for C1 (amended) at a concrete trimmed query. -/
theorem relevance_matches_spec_witness :
    calculateRelevance "hello world" "Hello there" "worlds apart" =
      specRelevance "hello world" "Hello there" "worlds apart" :=
  relevance_matches_spec.1 "hello world" "Hello there" "worlds apart" (by decide)

end FAQs
